import Mathlib

/-!
Shallow embedding of `packages/features/ee/round-robin/roundRobinManualReassignment.ts`.

The orchestrator is modelled as a pure function over an explicit environment `Env`
that stands for the database tables and the external collaborators (calendar sync,
destination-calendar lookup, team-member lookup, booker base URL).  Every write and
every outbound call the TypeScript code performs is recorded, in program order, as an
`Effect` in the returned trace.  Error throws are `Except.error` with the exact
message string thrown by the source; the source throws before performing any write,
which the embedding mirrors by pairing every error with an empty effect trace.
-/

namespace RoundRobin

/-- JS string `a || b`: the empty string is falsy, `null`/`undefined` are falsy. -/
def jsOrString (s : Option String) (d : String) : String :=
  match s with
  | some v => if v = "" then d else v
  | none => d

/-- JS `s || undefined` on a nullable string: empty string collapses to `undefined`. -/
def jsOrUndefined (s : Option String) : Option String :=
  match s with
  | some v => if v = "" then none else some v
  | none => none

/-- Parsed user profile metadata; only the field the orchestrator reads is kept
(`metadata.defaultConferencingApp.appLink`). `none` at the `User.metadata` level
models a metadata blob the zod schema fails to parse. -/
structure UserMetadata where
  defaultConferencingAppLink : Option String
  deriving Repr, DecidableEq

/-- A user row, restricted to the fields the orchestrator reads. -/
structure User where
  id : Nat
  email : String
  name : Option String
  username : Option String
  timeZone : String
  locale : Option String
  timeFormat : Option Nat
  metadata : Option UserMetadata
  deriving Repr, DecidableEq, Inhabited

/-- An attendee row of a booking. -/
structure Attendee where
  id : Nat
  name : String
  email : String
  timeZone : String
  locale : Option String
  phoneNumber : Option String
  deriving Repr, DecidableEq

/-- An event-type host entry: a user plus role metadata.  `isFixed` is the role bit
the orchestrator branches on. -/
structure Host where
  user : User
  isFixed : Bool
  priority : Nat
  weight : Nat
  weightAdjustment : Nat
  deriving Repr, DecidableEq

/-- A team record (name, id, and parent team used by the new-event workflow query). -/
structure Team where
  id : Nat
  name : String
  parentId : Option Nat
  deriving Repr, DecidableEq

/-- One entry of `eventType.locations`. -/
structure LocationOption where
  type : String
  deriving Repr, DecidableEq

/-- The event-type record, restricted to the fields the orchestrator reads. -/
structure EventType where
  id : Nat
  slug : String
  title : String
  eventName : Option String
  description : Option String
  length : Nat
  locations : List LocationOption
  hosts : List Host
  users : List User
  team : Option Team
  teamId : Option Nat
  deriving Repr, DecidableEq

/-- A booking row.  `responses` models the booking responses after the zod
`safeParseAsync` for the reschedule view: `some name` when the parse succeeds and
yields a name, `none` when it fails (best-effort titling). `user`/`userId` are the
organizer relation and its foreign key. -/
structure Booking where
  id : Nat
  uid : String
  userId : Option Nat
  user : Option User
  userPrimaryEmail : Option String
  eventTypeId : Option Nat
  title : String
  location : Option String
  startTime : Nat
  endTime : Nat
  attendees : List Attendee
  responses : Option String
  customInputs : Option String
  deriving Repr, DecidableEq, Inhabited

/-- A row of the `destinationCalendar` table. -/
structure DestinationCalendar where
  userId : Option Nat
  integration : String
  externalId : String
  deriving Repr, DecidableEq

/-- A calendar-provider reference (`bookingReference` row content). -/
structure Reference where
  type : String
  uid : String
  deriving Repr, DecidableEq

/-- A person entry of the outbound calendar event (organizer / team member).
`locale` also stands for the locale-bound translator, which is a pure function of
the locale. -/
structure Person where
  email : String
  name : String
  timeZone : String
  locale : String
  deriving Repr, DecidableEq, Inhabited

/-- An attendee entry of the outbound calendar event. -/
structure EvtAttendee where
  email : String
  name : String
  timeZone : String
  locale : String
  phoneNumber : Option String
  deriving Repr, DecidableEq

/-- The materialized calendar-event representation (`evt` in the source). -/
structure CalendarEvent where
  type : String
  title : String
  description : Option String
  startTime : Nat
  endTime : Nat
  organizer : Person
  attendees : List EvtAttendee
  uid : String
  destinationCalendar : Option DestinationCalendar
  teamMembers : List Person
  teamName : String
  teamId : Nat
  customInputs : Option String
  responsesData : Option String
  cancellationReason : String
  deriving Repr, DecidableEq, Inhabited

inductive WorkflowTriggerEvent where
  | beforeEvent
  | newEvent
  | afterEvent
  | eventCancelled
  | rescheduleEvent
  deriving Repr, DecidableEq

inductive WorkflowMethod where
  | email
  | sms
  | whatsapp
  deriving Repr, DecidableEq

inductive WorkflowAction where
  | emailHost
  | emailAttendee
  | smsAttendee
  deriving Repr, DecidableEq

/-- The nested `workflow` select of the reminder query: trigger and time offset. -/
structure WorkflowInfo where
  trigger : WorkflowTriggerEvent
  time : Option Nat
  timeUnit : Option String
  deriving Repr, DecidableEq

/-- The nested `workflowStep` select of the reminder query. -/
structure WorkflowStep where
  action : WorkflowAction
  template : String
  workflow : WorkflowInfo
  deriving Repr, DecidableEq

/-- A `workflowReminder` row. -/
structure WorkflowReminder where
  id : Nat
  referenceId : Option String
  bookingUid : String
  method : WorkflowMethod
  workflowStep : Option WorkflowStep
  deriving Repr, DecidableEq

/-- A `workflow` row with the activation fields of the new-event query. -/
structure Workflow where
  id : Nat
  trigger : WorkflowTriggerEvent
  isActiveOnAll : Bool
  teamId : Option Nat
  activeOnEventTypeIds : List Nat
  activeOnTeamIds : List Nat
  deriving Repr, DecidableEq

/-- One observable action of the orchestrator: a storage write or an outbound
collaborator call, recorded in program order. -/
inductive Effect where
  | updateBooking (bookingId : Nat) (userId : Nat) (title : String) (userPrimaryEmail : String)
  | updateAttendee (attendeeId : Nat) (name : String) (email : String) (timeZone : String)
      (locale : Option String)
  | reschedule (evt : CalendarEvent) (uid : String) (changedOrganizer : Bool)
      (removeFromCalendars : List DestinationCalendar)
  | replaceReferences (bookingId : Nat) (references : List Reference)
  | sendScheduled (evt : CalendarEvent) (recipientEmail : String)
  | sendCancelled (evt : CalendarEvent) (recipientEmail : String)
  | scheduleReminder (sendTo : String) (trigger : WorkflowTriggerEvent) (time : Option Nat)
      (timeUnit : Option String) (template : String)
  | deleteReminder (reminderId : Nat) (referenceId : Option String)
  | scheduleWorkflowReminders (workflowIds : List Nat)
  deriving Repr, DecidableEq

/-- Effects produced by the workflow-migration step (`handleWorkflowsUpdate`). -/
def Effect.isWorkflowMigration : Effect → Bool
  | .scheduleReminder _ _ _ _ _ => true
  | .deleteReminder _ _ => true
  | .scheduleWorkflowReminders _ => true
  | _ => false

/-- The environment: database tables plus the results of the external collaborators
(the spec treats them as thin I/O wrappers specified at their interface boundary). -/
structure Env where
  bookings : List Booking
  eventTypes : List EventType
  destinationCalendars : List DestinationCalendar
  destinationCalendarOracle : Option DestinationCalendar
  teamMembersOracle : List Person
  bookingReferences : List Reference
  rescheduleRefs : List Reference
  workflowReminders : List WorkflowReminder
  workflows : List Workflow
  bookerUrl : String
  deriving Repr

def ErrorCode.invalidRoundRobinHost : String := "invalid_round_robin_host"

def ErrorCode.userIsFixed : String := "user_is_round_robin_fixed"

/-- The constant `OrganizerDefaultConferencingAppType` from the app store. -/
def OrganizerDefaultConferencingAppType : String := "conferencing"

/-- Default host wrapper used when `eventType.hosts` is empty: every plain event-type
user becomes a round-robin host with priority 2 and weight 100. -/
def defaultHost (u : User) : Host :=
  { user := u, isFixed := false, priority := 2, weight := 100, weightAdjustment := 0 }

/-- `eventType.hosts.length ? eventType.hosts : eventType.users.map(...)`. -/
def effectiveHosts (et : EventType) : List Host :=
  if et.hosts.length ≠ 0 then et.hosts else et.users.map defaultHost

/-- The condition `eventType.locations.includes(OBJECT_LITERAL)` of the source.
JS `Array.prototype.includes` compares objects by reference (SameValueZero), and the
argument is a freshly allocated object literal, so no element of the array can be
reference-equal to it: the call returns `false` for every input. -/
def locationsIncludesFreshObjectLiteral (_locations : List LocationOption) : Bool := false

/-- Modelled from the spec: `getLocationValueForDB` (from `app-store/locations`, not
under `src/`) resolves a stored location value against the configured location list
of the event type; the orchestrator only forwards its `bookingLocation` field. -/
def getLocationValueForDB (loc : String) (_locations : List LocationOption) : String := loc

/-- The `bookingLocation` computation of the organizer-changed branch (source lines
116-126), including the always-false `includes` condition. -/
def resolvedBookingLocation (eventType : EventType) (newUser : User) (bookingLoc : Option String) :
    Option String :=
  if locationsIncludesFreshObjectLiteral eventType.locations then
    let defaultLocationUrl :=
      match newUser.metadata with
      | some m => m.defaultConferencingAppLink
      | none => none
    let currentBookingLocation := jsOrString bookingLoc "integrations:daily"
    some (jsOrString defaultLocationUrl
      (getLocationValueForDB currentBookingLocation eventType.locations))
  else bookingLoc

/-- Location resolution as the spec states it: when the event type is configured with
the organizer-default-conferencing location type, prefer the new organizer profile
default conferencing link, else resolve the current booking location (or the fixed
default provider) against the configured location list.  Kept separate from
`resolvedBookingLocation` (translated from the source) for comparison. -/
def resolvedBookingLocationSpec (eventType : EventType) (newUser : User)
    (bookingLoc : Option String) : Option String :=
  if eventType.locations.any (fun l => l.type == OrganizerDefaultConferencingAppType) then
    let defaultLocationUrl :=
      match newUser.metadata with
      | some m => m.defaultConferencingAppLink
      | none => none
    let currentBookingLocation := jsOrString bookingLoc "integrations:daily"
    some (jsOrString defaultLocationUrl
      (getLocationValueForDB currentBookingLocation eventType.locations))
  else bookingLoc

/-- Modelled from the spec: `getEventName` (from `core/event`, not under `src/`) is a
deterministic template of attendee name, event-type title/name, team name, host
display name, resolved location, booking field responses, duration and host locale. -/
def getEventName (attendeeName : String) (eventTypeTitle : String) (eventName : Option String)
    (teamName : Option String) (host : String) (location : String) (responses : Option String)
    (eventDuration : Nat) (locale : String) : String :=
  match eventName with
  | some n =>
      n ++ "|" ++ attendeeName ++ "|" ++ host ++ "|" ++ location ++ "|" ++
        jsOrString teamName "" ++ "|" ++ jsOrString responses "" ++ "|" ++
        toString eventDuration ++ "|" ++ locale
  | none => eventTypeTitle ++ " between " ++ host ++ " and " ++ attendeeName

/-- Modelled from the spec: `BookingReferenceRepository.replaceBookingReferences` (not
under `src/`) replaces the stored references of the booking with exactly the given
list; nothing of the prior set survives and no merging occurs. -/
def replaceBookingReferences (_prior : List Reference) (newRefs : List Reference) :
    List Reference := newRefs

/-- The organizer person entry of the outbound event: `name || ""`, translator bound
to `locale || "en"`. -/
def personOfUser (u : User) : Person :=
  { email := u.email
    name := jsOrString u.name ""
    timeZone := u.timeZone
    locale := jsOrString u.locale "en" }

/-- One outbound attendee entry: locale via `??` (nullish coalescing, so an empty
string is kept), phone number via `|| undefined`. -/
def evtAttendeeOf (a : Attendee) : EvtAttendee :=
  { email := a.email
    name := a.name
    timeZone := a.timeZone
    locale := a.locale.getD "en"
    phoneNumber := jsOrUndefined a.phoneNumber }

/-- The updated booking written (and re-read through `select`) by
`prisma.booking.update` in the organizer-changed branch; the `user` relation resolves
to the new organizer through the updated foreign key. -/
def updatedBookingForNewOrganizer (booking0 : Booking) (eventType : EventType) (newUser : User)
    (newUserId : Nat) : Booking :=
  let bookingLocation := resolvedBookingLocation eventType newUser booking0.location
  let newBookingTitle := getEventName (jsOrString booking0.responses "Nameless") eventType.title
    eventType.eventName (eventType.team.map (fun t => t.name)) (jsOrString newUser.name "Nameless")
    (jsOrString bookingLocation "integrations:daily") booking0.responses eventType.length
    (jsOrString newUser.locale "en")
  { booking0 with
      userId := some newUserId
      user := some newUser
      title := newBookingTitle
      userPrimaryEmail := some newUser.email }

/-- Applies `prisma.attendee.update` to one booking row: the attendee row with the
given id takes the new round-robin participant identity. -/
def updateAttendeeInBooking (b : Booking) (attId : Nat) (newUser : User) : Booking :=
  { b with
      attendees := b.attendees.map (fun a =>
        if a.id == attId then
          { a with
              name := jsOrString newUser.name ""
              email := newUser.email
              timeZone := newUser.timeZone
              locale := newUser.locale }
        else a) }

/-- Output of the mutation step: the in-memory booking the rest of the flow uses, the
database state after the step, and the write effects it performed. -/
structure MutationOut where
  booking : Booking
  dbBookings : List Booking
  effects : List Effect
  deriving Repr

/-- The mutation step (source lines 107-160).  In the organizer-changed branch the
in-memory booking is the re-read updated row; in the attendee-substitution branch the
attendee row is updated in storage but the in-memory booking is left as read before
the update. -/
def mutationStep (env : Env) (booking0 : Booking) (eventType : EventType) (newUser : User)
    (newUserId : Nat) (hasOrganizerChanged : Bool) (currentRRHost : Option Attendee)
    (bookingId : Nat) : MutationOut :=
  if hasOrganizerChanged then
    let updated := updatedBookingForNewOrganizer booking0 eventType newUser newUserId
    { booking := updated
      dbBookings := env.bookings.map (fun b => if b.id == bookingId then updated else b)
      effects := [Effect.updateBooking bookingId newUserId updated.title newUser.email] }
  else
    match currentRRHost with
    | some rr =>
        { booking := booking0
          dbBookings := env.bookings.map (fun b => updateAttendeeInBooking b rr.id newUser)
          effects := [Effect.updateAttendee rr.id (jsOrString newUser.name "") newUser.email
            newUser.timeZone newUser.locale] }
    | none => { booking := booking0, dbBookings := env.bookings, effects := [] }

/-- The outbound calendar-event representation (`evt`, source lines 190-216), built
from the given in-memory booking and the new organizer. -/
def buildCalendarEvent (env : Env) (booking : Booking) (eventType : EventType) (newUser : User) :
    CalendarEvent :=
  { type := eventType.slug
    title := booking.title
    description := eventType.description
    startTime := booking.startTime
    endTime := booking.endTime
    organizer := personOfUser newUser
    attendees := booking.attendees.map evtAttendeeOf
    uid := booking.uid
    destinationCalendar := env.destinationCalendarOracle
    teamMembers := env.teamMembersOracle
    teamName := jsOrString (eventType.team.map (fun t => t.name)) ""
    teamId := ((eventType.team.map (fun t => t.id)).getD 0)
    customInputs := booking.customInputs
    responsesData := booking.responses
    cancellationReason := "Manually re-assigned" }

/-- The reminder filter of the `workflowReminder.findMany` query: this booking uid,
email method, email-host step action, trigger among before/new/after event. -/
def reminderMatches (uid : String) (r : WorkflowReminder) : Bool :=
  r.bookingUid == uid && decide (r.method = WorkflowMethod.email) &&
    (match r.workflowStep with
     | some s =>
        decide (s.action = WorkflowAction.emailHost) &&
          (decide (s.workflow.trigger = WorkflowTriggerEvent.beforeEvent) ||
            decide (s.workflow.trigger = WorkflowTriggerEvent.newEvent) ||
            decide (s.workflow.trigger = WorkflowTriggerEvent.afterEvent))
     | none => false)

/-- The migration loop body for one reminder: schedule the replacement addressed to
the new organizer when the step data is present, then delete the original reminder. -/
def migrateReminderEffects (newUserEmail : String) (r : WorkflowReminder) : List Effect :=
  (match r.workflowStep with
   | some s => [Effect.scheduleReminder newUserEmail s.workflow.trigger s.workflow.time
      s.workflow.timeUnit s.template]
   | none => []) ++ [Effect.deleteReminder r.id r.referenceId]

/-- The applicability filter of the new-event workflow query. -/
def newEventWorkflowMatches (et : EventType) (w : Workflow) : Bool :=
  decide (w.trigger = WorkflowTriggerEvent.newEvent) &&
    ((w.isActiveOnAll && decide (w.teamId = et.teamId)) ||
      w.activeOnEventTypeIds.contains et.id ||
      (match et.teamId with
       | some t => w.activeOnTeamIds.contains t
       | none => false) ||
      (match et.team with
       | some tm =>
          match tm.parentId with
          | some p => w.isActiveOnAll && decide (w.teamId = some p)
          | none => false
       | none => false))

/-- `handleWorkflowsUpdate` (source lines 293-431) as its effect trace: migrate each
matching reminder (schedule replacement, then delete), then schedule the applicable
new-event workflows against the new organizer. -/
def handleWorkflowsUpdate (env : Env) (booking : Booking) (newUser : User)
    (eventType : EventType) : List Effect :=
  let reminders := env.workflowReminders.filter (reminderMatches booking.uid)
  reminders.flatMap (migrateReminderEffects newUser.email) ++
    [Effect.scheduleWorkflowReminders
      ((env.workflows.filter (newEventWorkflowMatches eventType)).map (fun w => w.id))]

/-- The result of a successful reassignment: the returned booking, the final stored
state, and the two notification payloads. -/
structure ReassignResult where
  booking : Booking
  dbBookings : List Booking
  dbReferences : List Reference
  evt : CalendarEvent
  cancelledEvt : CalendarEvent
  deriving Repr, Inhabited

/-- The organizer-change decision (source line 101):
`!fixedHost && booking.userId !== newUserId`. -/
def organizerChanged (eventType : EventType) (booking0 : Booking) (newUserId : Nat) : Bool :=
  ((effectiveHosts eventType).find? (fun h2 => h2.isFixed)).isNone &&
    !(decide (booking0.userId = some newUserId))

/-- The current round-robin participant lookup (source lines 87-89): the first
attendee whose email equals the email of some non-Fixed host. -/
def currentRRHostOf (eventType : EventType) (booking0 : Booking) : Option Attendee :=
  booking0.attendees.find? (fun a =>
    (effectiveHosts eventType).any (fun h2 => !h2.isFixed && h2.user.email == a.email))

/-- The set of calendars the event is removed from: the destination calendar of the
previous organizer, looked up only when the organizer changed (source lines 224-236). -/
def removeCalendarsOf (env : Env) (originalOrganizer : User) (changed : Bool) :
    List DestinationCalendar :=
  if changed then
    match env.destinationCalendars.find? (fun c => c.userId == some originalOrganizer.id) with
    | some c => [c]
    | none => []
  else []

/-- The success path after validation (source lines 100-290). -/
def reassignSuccess (env : Env) (booking0 : Booking) (originalOrganizer : User)
    (eventType : EventType) (bookingId : Nat) (newUserId : Nat) (newUserHost : Host) :
    List Effect × ReassignResult :=
  let hasOrganizerChanged := organizerChanged eventType booking0 newUserId
  let currentRRHost := currentRRHostOf eventType booking0
  let newUser := newUserHost.user
  let mo := mutationStep env booking0 eventType newUser newUserId hasOrganizerChanged
    currentRRHost bookingId
  let booking1 := mo.booking
  let evt := buildCalendarEvent env booking1 eventType newUser
  let removeCals := removeCalendarsOf env originalOrganizer hasOrganizerChanged
  let newReferencesToCreate := env.rescheduleRefs
  let cancelledEvt := { evt with organizer := personOfUser originalOrganizer }
  let wfFx :=
    if hasOrganizerChanged then handleWorkflowsUpdate env booking1 newUser eventType else []
  let fx := mo.effects ++
    [Effect.reschedule evt booking1.uid hasOrganizerChanged removeCals,
      Effect.replaceReferences bookingId newReferencesToCreate,
      Effect.sendScheduled evt newUser.email,
      Effect.sendCancelled cancelledEvt originalOrganizer.email] ++ wfFx
  (fx,
    { booking := booking1
      dbBookings := mo.dbBookings
      dbReferences := replaceBookingReferences env.bookingReferences newReferencesToCreate
      evt := evt
      cancelledEvt := cancelledEvt })

/-- Projection: the mutation-step output used by the success path. -/
def mutationOf (env : Env) (b0 : Booking) (et : EventType) (bId nId : Nat) (hTarget : Host) :
    MutationOut :=
  mutationStep env b0 et hTarget.user nId (organizerChanged et b0 nId) (currentRRHostOf et b0) bId

/-- Host resolution and role validation (source lines 86-98), then the success path. -/
def reassignCore (env : Env) (booking0 : Booking) (originalOrganizer : User)
    (eventType : EventType) (bookingId : Nat) (newUserId : Nat) :
    List Effect × Except String ReassignResult :=
  match (effectiveHosts eventType).find? (fun h2 => h2.user.id == newUserId) with
  | none => ([], Except.error ErrorCode.invalidRoundRobinHost)
  | some newUserHost =>
      if newUserHost.isFixed then ([], Except.error ErrorCode.userIsFixed)
      else
        let out := reassignSuccess env booking0 originalOrganizer eventType bookingId newUserId
          newUserHost
        (out.1, Except.ok out.2)

/-- The public entry point `roundRobinManualReassignment`: loads the booking and the
event type, validates, mutates, syncs, replaces references, notifies, and migrates
workflows when the organizer changed.  Returns the effect trace (in program order)
together with the outcome; every error of the source is thrown before any write, so
error outcomes carry an empty trace. -/
def roundRobinManualReassignment (env : Env) (bookingId : Nat) (newUserId : Nat)
    (_orgId : Option Nat) : List Effect × Except String ReassignResult :=
  match env.bookings.find? (fun b => b.id == bookingId) with
  | none => ([], Except.error "Booking not found or has no associated user")
  | some booking0 =>
      match booking0.user with
      | none => ([], Except.error "Booking not found or has no associated user")
      | some user =>
          match booking0.eventTypeId with
          | none => ([], Except.error "Event type not found")
          | some etId =>
              match env.eventTypes.find? (fun e2 => e2.id == etId) with
              | none => ([], Except.error "Event type not found")
              | some eventType => reassignCore env booking0 user eventType bookingId newUserId

/-! Concrete fixtures used by witnesses and counterexamples. -/

/-- Round-robin user U1. -/
def u1 : User :=
  { id := 1, email := "u1@x", name := some "U One", username := some "u1", timeZone := "UTC",
    locale := some "en", timeFormat := none, metadata := none }

/-- Round-robin user U2, with a default conferencing link in profile metadata. -/
def u2 : User :=
  { id := 2, email := "u2@x", name := some "U Two", username := some "u2",
    timeZone := "Europe/Berlin", locale := some "de", timeFormat := none,
    metadata := some { defaultConferencingAppLink := some "https://meet.example/u2" } }

/-- Fixed host F. -/
def uF : User :=
  { id := 10, email := "f@x", name := some "Fixed F", username := some "f", timeZone := "UTC",
    locale := some "en", timeFormat := none, metadata := none }

/-- A plain guest attendee. -/
def guestAttendee : Attendee :=
  { id := 50, name := "Guest", email := "g@x", timeZone := "UTC", locale := some "en",
    phoneNumber := none }

/-- The attendee row standing for the current round-robin participant U1. -/
def rrAttendeeU1 : Attendee :=
  { id := 100, name := "U One", email := "u1@x", timeZone := "UTC", locale := some "en",
    phoneNumber := none }

/-- Event type with only round-robin hosts U1 and U2 (Scenario B shape). -/
def etNoFixed : EventType :=
  { id := 5, slug := "rr", title := "RR Meeting", eventName := none, description := some "d",
    length := 30, locations := [{ type := "inPerson" }],
    hosts := [defaultHost u1, defaultHost u2], users := [], team := none, teamId := none }

/-- Event type with Fixed host F and round-robin hosts U1 and U2 (Scenario A shape). -/
def etFixed : EventType :=
  { id := 6, slug := "rr-fixed", title := "RR Fixed Meeting", eventName := none,
    description := none, length := 30, locations := [],
    hosts := [{ defaultHost uF with isFixed := true }, defaultHost u1, defaultHost u2],
    users := [], team := none, teamId := none }

/-- Booking organized by U1 on the no-fixed-host event type. -/
def bookingB : Booking :=
  { id := 1, uid := "uidB", userId := some 1, user := some u1, userPrimaryEmail := some "u1@x",
    eventTypeId := some 5, title := "Old Title", location := some "inPerson",
    startTime := 1000, endTime := 2000, attendees := [guestAttendee],
    responses := some "Guest", customInputs := none }

/-- Booking organized by Fixed host F, whose attendee list carries U1 as the current
round-robin participant. -/
def bookingA : Booking :=
  { id := 1, uid := "uidA", userId := some 10, user := some uF, userPrimaryEmail := some "f@x",
    eventTypeId := some 6, title := "Fixed Title", location := none,
    startTime := 1000, endTime := 2000, attendees := [rrAttendeeU1],
    responses := none, customInputs := none }

/-- A pending email-host reminder on booking `uidB` with a before-event trigger. -/
def reminderB : WorkflowReminder :=
  { id := 7, referenceId := some "r7", bookingUid := "uidB", method := WorkflowMethod.email,
    workflowStep := some
      { action := WorkflowAction.emailHost, template := "tpl",
        workflow :=
          { trigger := WorkflowTriggerEvent.beforeEvent, time := some 10,
            timeUnit := some "minute" } } }

/-- A new-event workflow active on event type 5. -/
def workflowB : Workflow :=
  { id := 3, trigger := WorkflowTriggerEvent.newEvent, isActiveOnAll := false, teamId := none,
    activeOnEventTypeIds := [5], activeOnTeamIds := [] }

/-- Environment for the no-fixed-host scenario (organizer change on reassigning to U2). -/
def envB : Env :=
  { bookings := [bookingB], eventTypes := [etNoFixed],
    destinationCalendars := [{ userId := some 1, integration := "google", externalId := "cal-u1" }],
    destinationCalendarOracle := some
      { userId := some 2, integration := "google", externalId := "cal-u2" },
    teamMembersOracle := [], bookingReferences := [{ type := "google_calendar", uid := "old-ref" }],
    rescheduleRefs := [{ type := "google_calendar", uid := "new-ref" }],
    workflowReminders := [reminderB], workflows := [workflowB], bookerUrl := "https://cal.test" }

/-- Environment for the fixed-host scenario (attendee substitution on reassigning to U2). -/
def envA : Env :=
  { bookings := [bookingA], eventTypes := [etFixed],
    destinationCalendars := [],
    destinationCalendarOracle := none,
    teamMembersOracle := [], bookingReferences := [{ type := "google_calendar", uid := "old-ref" }],
    rescheduleRefs := [{ type := "google_calendar", uid := "new-ref" }],
    workflowReminders := [], workflows := [], bookerUrl := "https://cal.test" }

/-! Theorems. -/

/-- Unfolding lemma: once the booking (with organizer) and the event type are found,
the entry point reduces to the validation-and-success core. -/
theorem reassign_eq (env : Env) (bId nId : Nat) (orgId : Option Nat) (b0 : Booking)
    (orig : User) (etId : Nat) (et : EventType)
    (hb : env.bookings.find? (fun b => b.id == bId) = some b0)
    (hu : b0.user = some orig)
    (hei : b0.eventTypeId = some etId)
    (het : env.eventTypes.find? (fun e2 => e2.id == etId) = some et) :
    roundRobinManualReassignment env bId nId orgId = reassignCore env b0 orig et bId nId := by
  simp only [roundRobinManualReassignment, hb, hu, hei, het]

/-- C4: for every event-type host configuration, calling reassign with a target host
whose role is Fixed fails with the `UserIsFixed` error, and nothing is written. -/
theorem fixed_target_fails_userIsFixed (env : Env) (bId nId : Nat) (orgId : Option Nat)
    (b0 : Booking) (orig : User) (etId : Nat) (et : EventType) (hTarget : Host)
    (hb : env.bookings.find? (fun b => b.id == bId) = some b0)
    (hu : b0.user = some orig)
    (hei : b0.eventTypeId = some etId)
    (het : env.eventTypes.find? (fun e2 => e2.id == etId) = some et)
    (hh : (effectiveHosts et).find? (fun h2 => h2.user.id == nId) = some hTarget)
    (hfix : hTarget.isFixed = true) :
    roundRobinManualReassignment env bId nId orgId = ([], Except.error ErrorCode.userIsFixed) := by
  rw [reassign_eq env bId nId orgId b0 orig etId et hb hu hei het]
  simp only [reassignCore, hh, hfix, if_true]

/-- C4 witness: reassigning booking 1 of the fixed-host scenario to the Fixed host F
fails with the `UserIsFixed` error. -/
theorem fixed_target_fails_userIsFixed_witness :
    roundRobinManualReassignment envA 1 10 none = ([], Except.error ErrorCode.userIsFixed) :=
  fixed_target_fails_userIsFixed envA 1 10 none bookingA uF 6 etFixed
    { defaultHost uF with isFixed := true } rfl rfl rfl rfl rfl rfl

/-- C5: calling reassign with a target host id absent from the effective host list of
the event type fails with the `InvalidRoundRobinHost` error, and the effect trace is
empty: no booking, attendee, or reference write occurs before the failure. -/
theorem absent_target_fails_invalidHost (env : Env) (bId nId : Nat) (orgId : Option Nat)
    (b0 : Booking) (orig : User) (etId : Nat) (et : EventType)
    (hb : env.bookings.find? (fun b => b.id == bId) = some b0)
    (hu : b0.user = some orig)
    (hei : b0.eventTypeId = some etId)
    (het : env.eventTypes.find? (fun e2 => e2.id == etId) = some et)
    (hh : (effectiveHosts et).find? (fun h2 => h2.user.id == nId) = none) :
    roundRobinManualReassignment env bId nId orgId =
      ([], Except.error ErrorCode.invalidRoundRobinHost) := by
  rw [reassign_eq env bId nId orgId b0 orig etId et hb hu hei het]
  simp only [reassignCore, hh]

/-- C5 witness: reassigning booking 1 of the fixed-host scenario to the absent user id
99 fails with the `InvalidRoundRobinHost` error and writes nothing. -/
theorem absent_target_fails_invalidHost_witness :
    roundRobinManualReassignment envA 1 99 none =
      ([], Except.error ErrorCode.invalidRoundRobinHost) :=
  absent_target_fails_invalidHost envA 1 99 none bookingA uF 6 etFixed rfl rfl rfl rfl rfl

/-- Unfolding lemma: when additionally the target host is found and is not Fixed, the
call returns the success path outcome. -/
theorem reassign_success_eq (env : Env) (bId nId : Nat) (orgId : Option Nat) (b0 : Booking)
    (orig : User) (etId : Nat) (et : EventType) (hTarget : Host)
    (hb : env.bookings.find? (fun b => b.id == bId) = some b0)
    (hu : b0.user = some orig)
    (hei : b0.eventTypeId = some etId)
    (het : env.eventTypes.find? (fun e2 => e2.id == etId) = some et)
    (hh : (effectiveHosts et).find? (fun h2 => h2.user.id == nId) = some hTarget)
    (hnf : hTarget.isFixed = false) :
    roundRobinManualReassignment env bId nId orgId =
      ((reassignSuccess env b0 orig et bId nId hTarget).1,
        Except.ok (reassignSuccess env b0 orig et bId nId hTarget).2) := by
  rw [reassign_eq env bId nId orgId b0 orig etId et hb hu hei het]
  simp only [reassignCore, hh, hnf, Bool.false_eq_true, if_false]

/-- The booking returned by the success path is the output of the mutation step. -/
theorem reassignSuccess_booking (env : Env) (b0 : Booking) (orig : User) (et : EventType)
    (bId nId : Nat) (hTarget : Host) :
    (reassignSuccess env b0 orig et bId nId hTarget).2.booking =
      (mutationOf env b0 et bId nId hTarget).booking := rfl

/-- Mutation step, organizer-changed branch. -/
theorem mutationStep_changed (env : Env) (b0 : Booking) (et : EventType) (u : User)
    (nId : Nat) (rr : Option Attendee) (bId : Nat) :
    mutationStep env b0 et u nId true rr bId =
      { booking := updatedBookingForNewOrganizer b0 et u nId
        dbBookings := env.bookings.map (fun b =>
          if b.id == bId then updatedBookingForNewOrganizer b0 et u nId else b)
        effects := [Effect.updateBooking bId nId (updatedBookingForNewOrganizer b0 et u nId).title
          u.email] } := rfl

/-- Mutation step, attendee-substitution branch: the attendee row is updated in
storage, the in-memory booking is left as read before the update. -/
theorem mutationStep_substitution (env : Env) (b0 : Booking) (et : EventType) (u : User)
    (nId : Nat) (rr : Attendee) (bId : Nat) :
    mutationStep env b0 et u nId false (some rr) bId =
      { booking := b0
        dbBookings := env.bookings.map (fun b => updateAttendeeInBooking b rr.id u)
        effects := [Effect.updateAttendee rr.id (jsOrString u.name "") u.email u.timeZone
          u.locale] } := rfl

/-- Mutation step, no-op branch. -/
theorem mutationStep_noop (env : Env) (b0 : Booking) (et : EventType) (u : User)
    (nId : Nat) (bId : Nat) :
    mutationStep env b0 et u nId false none bId =
      { booking := b0, dbBookings := env.bookings, effects := [] } := rfl

/-- C1: on every successful reassignment, if the effective host list has a Fixed host
the organizer of the returned meeting is unchanged; if it has no Fixed host, the
organizer id of the returned meeting equals the target host id. -/
theorem organizer_after_success (env : Env) (bId nId : Nat) (orgId : Option Nat)
    (b0 : Booking) (orig : User) (etId : Nat) (et : EventType) (hTarget : Host)
    (hb : env.bookings.find? (fun b => b.id == bId) = some b0)
    (hu : b0.user = some orig)
    (hei : b0.eventTypeId = some etId)
    (het : env.eventTypes.find? (fun e2 => e2.id == etId) = some et)
    (hh : (effectiveHosts et).find? (fun h2 => h2.user.id == nId) = some hTarget)
    (hnf : hTarget.isFixed = false) :
    ((effectiveHosts et).find? (fun h2 => h2.isFixed) ≠ none →
      (roundRobinManualReassignment env bId nId orgId).2.map (fun r => r.booking.userId) =
        Except.ok b0.userId) ∧
    ((effectiveHosts et).find? (fun h2 => h2.isFixed) = none →
      (roundRobinManualReassignment env bId nId orgId).2.map (fun r => r.booking.userId) =
        Except.ok (some nId)) := by
  rw [reassign_success_eq env bId nId orgId b0 orig etId et hTarget hb hu hei het hh hnf]
  constructor
  · intro hfix
    obtain ⟨f, hf⟩ := Option.ne_none_iff_exists'.mp hfix
    simp only [Except.map, reassignSuccess_booking, mutationOf, organizerChanged, hf,
      Option.isNone_some, Bool.false_and]
    cases hc : currentRRHostOf et b0 with
    | none => rw [mutationStep_noop]
    | some rr => rw [mutationStep_substitution]
  · intro hfix
    simp only [Except.map, reassignSuccess_booking, mutationOf, organizerChanged, hfix,
      Option.isNone_none, Bool.true_and]
    by_cases hc : b0.userId = some nId
    · simp only [hc, decide_True, Bool.not_true]
      cases hrr : currentRRHostOf et b0 with
      | none => rw [mutationStep_noop]; exact congrArg Except.ok hc
      | some rr => rw [mutationStep_substitution]; exact congrArg Except.ok hc
    · simp only [hc, decide_False, Bool.not_false]
      rw [mutationStep_changed]
      rfl

/-- The stored references after the success path are exactly the references returned
by the reschedule collaborator call. -/
theorem reassignSuccess_dbReferences (env : Env) (b0 : Booking) (orig : User) (et : EventType)
    (bId nId : Nat) (hTarget : Host) :
    (reassignSuccess env b0 orig et bId nId hTarget).2.dbReferences = env.rescheduleRefs := rfl

/-- The outbound event of the success path is built from the mutation-step booking. -/
theorem reassignSuccess_evt (env : Env) (b0 : Booking) (orig : User) (et : EventType)
    (bId nId : Nat) (hTarget : Host) :
    (reassignSuccess env b0 orig et bId nId hTarget).2.evt =
      buildCalendarEvent env (mutationOf env b0 et bId nId hTarget).booking et hTarget.user := rfl

/-- The cancellation payload is the outbound event with only the organizer replaced by
the previous organizer. -/
theorem reassignSuccess_cancelledEvt (env : Env) (b0 : Booking) (orig : User) (et : EventType)
    (bId nId : Nat) (hTarget : Host) :
    (reassignSuccess env b0 orig et bId nId hTarget).2.cancelledEvt =
      { (reassignSuccess env b0 orig et bId nId hTarget).2.evt with
          organizer := personOfUser orig } := rfl

/-- The stored bookings after the success path are the mutation-step state. -/
theorem reassignSuccess_dbBookings (env : Env) (b0 : Booking) (orig : User) (et : EventType)
    (bId nId : Nat) (hTarget : Host) :
    (reassignSuccess env b0 orig et bId nId hTarget).2.dbBookings =
      (mutationOf env b0 et bId nId hTarget).dbBookings := rfl

/-- The effect trace of the success path, in program order. -/
theorem reassignSuccess_effects (env : Env) (b0 : Booking) (orig : User) (et : EventType)
    (bId nId : Nat) (hTarget : Host) :
    (reassignSuccess env b0 orig et bId nId hTarget).1 =
      (mutationOf env b0 et bId nId hTarget).effects ++
        [Effect.reschedule (reassignSuccess env b0 orig et bId nId hTarget).2.evt
            (mutationOf env b0 et bId nId hTarget).booking.uid
            (organizerChanged et b0 nId)
            (removeCalendarsOf env orig (organizerChanged et b0 nId)),
          Effect.replaceReferences bId env.rescheduleRefs,
          Effect.sendScheduled (reassignSuccess env b0 orig et bId nId hTarget).2.evt
            hTarget.user.email,
          Effect.sendCancelled (reassignSuccess env b0 orig et bId nId hTarget).2.cancelledEvt
            orig.email] ++
        (if organizerChanged et b0 nId then
          handleWorkflowsUpdate env (mutationOf env b0 et bId nId hTarget).booking
            hTarget.user et
        else []) := rfl

/-- C2: after every successful reassignment, the stored reference set of the meeting
is exactly the list the reschedule collaborator returned for this reassignment,
whatever references were stored before the call (no merging, no survivors), and the
reference replacement call carrying exactly that list is part of the trace. -/
theorem references_replaced_exactly (env : Env) (bId nId : Nat) (orgId : Option Nat)
    (b0 : Booking) (orig : User) (etId : Nat) (et : EventType) (hTarget : Host)
    (hb : env.bookings.find? (fun b => b.id == bId) = some b0)
    (hu : b0.user = some orig)
    (hei : b0.eventTypeId = some etId)
    (het : env.eventTypes.find? (fun e2 => e2.id == etId) = some et)
    (hh : (effectiveHosts et).find? (fun h2 => h2.user.id == nId) = some hTarget)
    (hnf : hTarget.isFixed = false) :
    (roundRobinManualReassignment env bId nId orgId).2.map (fun r => r.dbReferences) =
      Except.ok env.rescheduleRefs ∧
    Effect.replaceReferences bId env.rescheduleRefs ∈
      (roundRobinManualReassignment env bId nId orgId).1 := by
  rw [reassign_success_eq env bId nId orgId b0 orig etId et hTarget hb hu hei het hh hnf]
  refine ⟨rfl, ?_⟩
  rw [reassignSuccess_effects env b0 orig et bId nId hTarget]
  simp [List.mem_append]

/-- C2 witness: in the no-fixed-host scenario the stored references after reassigning
to U2 are exactly the collaborator result, the prior stored reference being gone. -/
theorem references_replaced_exactly_witness :
    (roundRobinManualReassignment envB 1 2 none).2.map (fun r => r.dbReferences) =
      Except.ok envB.rescheduleRefs ∧
    Effect.replaceReferences 1 envB.rescheduleRefs ∈
      (roundRobinManualReassignment envB 1 2 none).1 :=
  references_replaced_exactly envB 1 2 none bookingB u1 5 etNoFixed (defaultHost u2)
    rfl rfl rfl rfl rfl rfl

/-- C1 witness: in the no-fixed-host scenario, reassigning booking 1 to U2 yields
organizer id 2. -/
theorem organizer_after_success_witness :
    ((effectiveHosts etNoFixed).find? (fun h2 => h2.isFixed) ≠ none →
      (roundRobinManualReassignment envB 1 2 none).2.map (fun r => r.booking.userId) =
        Except.ok bookingB.userId) ∧
    ((effectiveHosts etNoFixed).find? (fun h2 => h2.isFixed) = none →
      (roundRobinManualReassignment envB 1 2 none).2.map (fun r => r.booking.userId) =
        Except.ok (some 2)) :=
  organizer_after_success envB 1 2 none bookingB u1 5 etNoFixed (defaultHost u2)
    rfl rfl rfl rfl rfl rfl

/-- Helper: every attendee row with the substituted id carries the new participant
identity after `updateAttendeeInBooking`. -/
theorem updateAttendeeInBooking_fields (b : Booking) (attId : Nat) (u : User) :
    ∀ a ∈ (updateAttendeeInBooking b attId u).attendees, a.id = attId →
      a.name = jsOrString u.name "" ∧ a.email = u.email ∧ a.timeZone = u.timeZone ∧
        a.locale = u.locale := by
  intro a ha hid
  simp only [updateAttendeeInBooking, List.mem_map] at ha
  obtain ⟨a0, _, rfl⟩ := ha
  by_cases h : (a0.id == attId) = true
  · simp [h]
  · simp only [h, if_false] at hid
    exact absurd (by simpa using hid) h

/-- C8: the cancellation notification payload is the outbound event with only the
organizer overwritten to the previous organizer; the attendee-facing scheduled send
and the calendar sync use the untouched outbound event value, whose organizer is the
new host. -/
theorem cancelled_payload_independent (env : Env) (bId nId : Nat) (orgId : Option Nat)
    (b0 : Booking) (orig : User) (etId : Nat) (et : EventType) (hTarget : Host)
    (hb : env.bookings.find? (fun b => b.id == bId) = some b0)
    (hu : b0.user = some orig)
    (hei : b0.eventTypeId = some etId)
    (het : env.eventTypes.find? (fun e2 => e2.id == etId) = some et)
    (hh : (effectiveHosts et).find? (fun h2 => h2.user.id == nId) = some hTarget)
    (hnf : hTarget.isFixed = false) :
    (roundRobinManualReassignment env bId nId orgId).2.map (fun r => r.cancelledEvt) =
      (roundRobinManualReassignment env bId nId orgId).2.map
        (fun r => { r.evt with organizer := personOfUser orig }) ∧
    (roundRobinManualReassignment env bId nId orgId).2.map (fun r => r.evt.organizer) =
      Except.ok (personOfUser hTarget.user) ∧
    (roundRobinManualReassignment env bId nId orgId).2.map
        (fun r => decide (Effect.sendScheduled r.evt hTarget.user.email ∈
          (roundRobinManualReassignment env bId nId orgId).1)) = Except.ok true ∧
    (roundRobinManualReassignment env bId nId orgId).2.map
        (fun r => decide (Effect.sendCancelled r.cancelledEvt orig.email ∈
          (roundRobinManualReassignment env bId nId orgId).1)) = Except.ok true := by
  rw [reassign_success_eq env bId nId orgId b0 orig etId et hTarget hb hu hei het hh hnf]
  refine ⟨rfl, rfl, ?_, ?_⟩
  · simp only [Except.map, reassignSuccess_effects env b0 orig et bId nId hTarget,
      List.mem_append, List.mem_cons, List.mem_singleton]
    simp
  · simp only [Except.map, reassignSuccess_effects env b0 orig et bId nId hTarget,
      List.mem_append, List.mem_cons, List.mem_singleton]
    simp

/-- C8 witness: concrete instance in the no-fixed-host scenario. -/
theorem cancelled_payload_independent_witness :
    (roundRobinManualReassignment envB 1 2 none).2.map (fun r => r.cancelledEvt) =
      (roundRobinManualReassignment envB 1 2 none).2.map
        (fun r => { r.evt with organizer := personOfUser u1 }) ∧
    (roundRobinManualReassignment envB 1 2 none).2.map (fun r => r.evt.organizer) =
      Except.ok (personOfUser u2) ∧
    (roundRobinManualReassignment envB 1 2 none).2.map
        (fun r => decide (Effect.sendScheduled r.evt u2.email ∈
          (roundRobinManualReassignment envB 1 2 none).1)) = Except.ok true ∧
    (roundRobinManualReassignment envB 1 2 none).2.map
        (fun r => decide (Effect.sendCancelled r.cancelledEvt u1.email ∈
          (roundRobinManualReassignment envB 1 2 none).1)) = Except.ok true :=
  cancelled_payload_independent envB 1 2 none bookingB u1 5 etNoFixed (defaultHost u2)
    rfl rfl rfl rfl rfl rfl

/-- C6 (Scenario A): with a Fixed host present and a current round-robin attendee on
the booking, reassigning to a non-Fixed host keeps the organizer, persists the new
host identity (name, email, timezone, locale) onto that attendee row, and the trace
is exactly attendee-update, reschedule, reference replacement and the two
notifications: no workflow migration runs. -/
theorem fixed_host_attendee_substitution (env : Env) (bId nId : Nat) (orgId : Option Nat)
    (b0 : Booking) (orig : User) (etId : Nat) (et : EventType) (hTarget : Host) (f : Host)
    (rr : Attendee)
    (hb : env.bookings.find? (fun b => b.id == bId) = some b0)
    (hu : b0.user = some orig)
    (hei : b0.eventTypeId = some etId)
    (het : env.eventTypes.find? (fun e2 => e2.id == etId) = some et)
    (hh : (effectiveHosts et).find? (fun h2 => h2.user.id == nId) = some hTarget)
    (hnf : hTarget.isFixed = false)
    (hfix : (effectiveHosts et).find? (fun h2 => h2.isFixed) = some f)
    (hrr : currentRRHostOf et b0 = some rr) :
    (roundRobinManualReassignment env bId nId orgId).2.map (fun r => r.booking.userId) =
      Except.ok b0.userId ∧
    (roundRobinManualReassignment env bId nId orgId).2.map (fun r => r.dbBookings) =
      Except.ok (env.bookings.map (fun b => updateAttendeeInBooking b rr.id hTarget.user)) ∧
    (∀ b2 ∈ env.bookings.map (fun b => updateAttendeeInBooking b rr.id hTarget.user),
      ∀ a ∈ b2.attendees, a.id = rr.id →
        a.name = jsOrString hTarget.user.name "" ∧ a.email = hTarget.user.email ∧
          a.timeZone = hTarget.user.timeZone ∧ a.locale = hTarget.user.locale) ∧
    (roundRobinManualReassignment env bId nId orgId).1 =
      [Effect.updateAttendee rr.id (jsOrString hTarget.user.name "") hTarget.user.email
          hTarget.user.timeZone hTarget.user.locale,
        Effect.reschedule (buildCalendarEvent env b0 et hTarget.user) b0.uid false [],
        Effect.replaceReferences bId env.rescheduleRefs,
        Effect.sendScheduled (buildCalendarEvent env b0 et hTarget.user) hTarget.user.email,
        Effect.sendCancelled
          { buildCalendarEvent env b0 et hTarget.user with organizer := personOfUser orig }
          orig.email] := by
  have hchanged : organizerChanged et b0 nId = false := by
    simp [organizerChanged, hfix]
  have hmo : mutationOf env b0 et bId nId hTarget =
      { booking := b0
        dbBookings := env.bookings.map (fun b => updateAttendeeInBooking b rr.id hTarget.user)
        effects := [Effect.updateAttendee rr.id (jsOrString hTarget.user.name "")
          hTarget.user.email hTarget.user.timeZone hTarget.user.locale] } := by
    rw [mutationOf, hchanged, hrr, mutationStep_substitution]
  rw [reassign_success_eq env bId nId orgId b0 orig etId et hTarget hb hu hei het hh hnf]
  refine ⟨?_, ?_, ?_, ?_⟩
  · simp only [Except.map, reassignSuccess_booking, hmo]
  · simp only [Except.map, reassignSuccess_dbBookings, hmo]
  · intro b2 hb2 a ha hid
    rcases List.mem_map.mp hb2 with ⟨b1, _, rfl⟩
    exact updateAttendeeInBooking_fields b1 rr.id hTarget.user a ha hid
  · rw [reassignSuccess_effects env b0 orig et bId nId hTarget,
      reassignSuccess_cancelledEvt env b0 orig et bId nId hTarget,
      reassignSuccess_evt env b0 orig et bId nId hTarget, hmo, hchanged]
    simp [removeCalendarsOf]

/-- C6 witness: reassigning the fixed-host booking to U2 substitutes the attendee and
keeps Fixed F as organizer. -/
theorem fixed_host_attendee_substitution_witness :
    (roundRobinManualReassignment envA 1 2 none).2.map (fun r => r.booking.userId) =
      Except.ok bookingA.userId ∧
    (roundRobinManualReassignment envA 1 2 none).2.map (fun r => r.dbBookings) =
      Except.ok (envA.bookings.map (fun b => updateAttendeeInBooking b rrAttendeeU1.id u2)) ∧
    (∀ b2 ∈ envA.bookings.map (fun b => updateAttendeeInBooking b rrAttendeeU1.id u2),
      ∀ a ∈ b2.attendees, a.id = rrAttendeeU1.id →
        a.name = jsOrString u2.name "" ∧ a.email = u2.email ∧
          a.timeZone = u2.timeZone ∧ a.locale = u2.locale) ∧
    (roundRobinManualReassignment envA 1 2 none).1 =
      [Effect.updateAttendee rrAttendeeU1.id (jsOrString u2.name "") u2.email u2.timeZone
          u2.locale,
        Effect.reschedule (buildCalendarEvent envA bookingA etFixed u2) bookingA.uid false [],
        Effect.replaceReferences 1 envA.rescheduleRefs,
        Effect.sendScheduled (buildCalendarEvent envA bookingA etFixed u2) u2.email,
        Effect.sendCancelled
          { buildCalendarEvent envA bookingA etFixed u2 with organizer := personOfUser uF }
          uF.email] :=
  fixed_host_attendee_substitution envA 1 2 none bookingA uF 6 etFixed (defaultHost u2)
    { defaultHost uF with isFixed := true } rrAttendeeU1 rfl rfl rfl rfl rfl rfl rfl rfl

/-- C10: with no Fixed host, no attendee matching a round-robin host email, and the
current organizer as target, the call succeeds leaving the booking (organizer, title,
attendees) and the stored bookings untouched, while the trace still carries the
reschedule call, the reference replacement, and both notifications — and nothing
else, so workflow migration is skipped. -/
theorem reassign_to_self_still_syncs (env : Env) (bId nId : Nat) (orgId : Option Nat)
    (b0 : Booking) (orig : User) (etId : Nat) (et : EventType) (hTarget : Host)
    (hb : env.bookings.find? (fun b => b.id == bId) = some b0)
    (hu : b0.user = some orig)
    (hei : b0.eventTypeId = some etId)
    (het : env.eventTypes.find? (fun e2 => e2.id == etId) = some et)
    (hh : (effectiveHosts et).find? (fun h2 => h2.user.id == nId) = some hTarget)
    (hnofix : (effectiveHosts et).find? (fun h2 => h2.isFixed) = none)
    (hnorr : currentRRHostOf et b0 = none)
    (hsame : b0.userId = some nId) :
    (roundRobinManualReassignment env bId nId orgId).2.map (fun r => r.booking) =
      Except.ok b0 ∧
    (roundRobinManualReassignment env bId nId orgId).2.map (fun r => r.dbBookings) =
      Except.ok env.bookings ∧
    (roundRobinManualReassignment env bId nId orgId).2.map (fun r => r.dbReferences) =
      Except.ok env.rescheduleRefs ∧
    (roundRobinManualReassignment env bId nId orgId).1 =
      [Effect.reschedule (buildCalendarEvent env b0 et hTarget.user) b0.uid false [],
        Effect.replaceReferences bId env.rescheduleRefs,
        Effect.sendScheduled (buildCalendarEvent env b0 et hTarget.user) hTarget.user.email,
        Effect.sendCancelled
          { buildCalendarEvent env b0 et hTarget.user with organizer := personOfUser orig }
          orig.email] := by
  have hnf : hTarget.isFixed = false := by
    have hmem := List.mem_of_find?_eq_some hh
    have hne := List.find?_eq_none.mp hnofix hTarget hmem
    simpa using hne
  have hchanged : organizerChanged et b0 nId = false := by
    simp [organizerChanged, hsame]
  have hmo : mutationOf env b0 et bId nId hTarget =
      { booking := b0, dbBookings := env.bookings, effects := [] } := by
    rw [mutationOf, hchanged, hnorr, mutationStep_noop]
  rw [reassign_success_eq env bId nId orgId b0 orig etId et hTarget hb hu hei het hh hnf]
  refine ⟨?_, ?_, rfl, ?_⟩
  · simp only [Except.map, reassignSuccess_booking, hmo]
  · simp only [Except.map, reassignSuccess_dbBookings, hmo]
  · rw [reassignSuccess_effects env b0 orig et bId nId hTarget,
      reassignSuccess_cancelledEvt env b0 orig et bId nId hTarget,
      reassignSuccess_evt env b0 orig et bId nId hTarget, hmo, hchanged]
    simp [removeCalendarsOf]

/-- C10 witness: reassigning the no-fixed-host booking to its current organizer U1
succeeds, mutates nothing, and still syncs, replaces references and notifies. -/
theorem reassign_to_self_still_syncs_witness :
    (roundRobinManualReassignment envB 1 1 none).2.map (fun r => r.booking) =
      Except.ok bookingB ∧
    (roundRobinManualReassignment envB 1 1 none).2.map (fun r => r.dbBookings) =
      Except.ok envB.bookings ∧
    (roundRobinManualReassignment envB 1 1 none).2.map (fun r => r.dbReferences) =
      Except.ok envB.rescheduleRefs ∧
    (roundRobinManualReassignment envB 1 1 none).1 =
      [Effect.reschedule (buildCalendarEvent envB bookingB etNoFixed u1) bookingB.uid false [],
        Effect.replaceReferences 1 envB.rescheduleRefs,
        Effect.sendScheduled (buildCalendarEvent envB bookingB etNoFixed u1) u1.email,
        Effect.sendCancelled
          { buildCalendarEvent envB bookingB etNoFixed u1 with organizer := personOfUser u1 }
          u1.email] :=
  reassign_to_self_still_syncs envB 1 1 none bookingB u1 5 etNoFixed (defaultHost u1)
    rfl rfl rfl rfl rfl rfl rfl rfl

/-- C3 counterexample: on the attendee-substitution path the representation handed to
the calendar sync is not built from the persisted state.  Reassigning the fixed-host
booking to U2 persists the new attendee email to storage, yet the outbound event
still carries the pre-update attendee email of U1. -/
theorem evt_stale_attendee_counterexample :
    (roundRobinManualReassignment envA 1 2 none).2.map
        (fun r => r.evt.attendees.map (fun a => a.email)) = Except.ok ["u1@x"] ∧
    (roundRobinManualReassignment envA 1 2 none).2.map
        (fun r => r.dbBookings.map (fun b => b.attendees.map (fun a => a.email))) =
      Except.ok [["u2@x"]] := ⟨rfl, rfl⟩

/-- C3 amended: when the organizer changes, the outbound representation is built from
the booking as persisted and re-read by the update (new organizer, recomputed title,
new organizer contact); when only a round-robin attendee is substituted, the attendee
update is persisted to storage but the representation is built from the in-memory
booking read before the update, so it still carries the pre-update attendee values. -/
theorem evt_built_from_mutation_booking (env : Env) (bId nId : Nat) (orgId : Option Nat)
    (b0 : Booking) (orig : User) (etId : Nat) (et : EventType) (hTarget : Host)
    (hb : env.bookings.find? (fun b => b.id == bId) = some b0)
    (hu : b0.user = some orig)
    (hei : b0.eventTypeId = some etId)
    (het : env.eventTypes.find? (fun e2 => e2.id == etId) = some et)
    (hh : (effectiveHosts et).find? (fun h2 => h2.user.id == nId) = some hTarget)
    (hnf : hTarget.isFixed = false) :
    (organizerChanged et b0 nId = true →
      (roundRobinManualReassignment env bId nId orgId).2.map (fun r => r.evt) =
        Except.ok (buildCalendarEvent env
          (updatedBookingForNewOrganizer b0 et hTarget.user nId) et hTarget.user) ∧
      (roundRobinManualReassignment env bId nId orgId).2.map (fun r => r.booking) =
        Except.ok (updatedBookingForNewOrganizer b0 et hTarget.user nId) ∧
      (roundRobinManualReassignment env bId nId orgId).2.map (fun r => r.dbBookings) =
        Except.ok (env.bookings.map (fun b =>
          if b.id == bId then updatedBookingForNewOrganizer b0 et hTarget.user nId else b))) ∧
    (∀ rr, organizerChanged et b0 nId = false → currentRRHostOf et b0 = some rr →
      (roundRobinManualReassignment env bId nId orgId).2.map (fun r => r.evt) =
        Except.ok (buildCalendarEvent env b0 et hTarget.user) ∧
      (roundRobinManualReassignment env bId nId orgId).2.map (fun r => r.dbBookings) =
        Except.ok (env.bookings.map (fun b => updateAttendeeInBooking b rr.id hTarget.user))) := by
  rw [reassign_success_eq env bId nId orgId b0 orig etId et hTarget hb hu hei het hh hnf]
  constructor
  · intro hch
    have hmo : mutationOf env b0 et bId nId hTarget =
        { booking := updatedBookingForNewOrganizer b0 et hTarget.user nId
          dbBookings := env.bookings.map (fun b =>
            if b.id == bId then updatedBookingForNewOrganizer b0 et hTarget.user nId else b)
          effects := [Effect.updateBooking bId nId
            (updatedBookingForNewOrganizer b0 et hTarget.user nId).title hTarget.user.email] } := by
      rw [mutationOf, hch, mutationStep_changed]
    refine ⟨?_, ?_, ?_⟩
    · simp only [Except.map, reassignSuccess_evt, hmo]
    · simp only [Except.map, reassignSuccess_booking, hmo]
    · simp only [Except.map, reassignSuccess_dbBookings, hmo]
  · intro rr hch hrr
    have hmo : mutationOf env b0 et bId nId hTarget =
        { booking := b0
          dbBookings := env.bookings.map (fun b => updateAttendeeInBooking b rr.id hTarget.user)
          effects := [Effect.updateAttendee rr.id (jsOrString hTarget.user.name "")
            hTarget.user.email hTarget.user.timeZone hTarget.user.locale] } := by
      rw [mutationOf, hch, hrr, mutationStep_substitution]
    refine ⟨?_, ?_⟩
    · simp only [Except.map, reassignSuccess_evt, hmo]
    · simp only [Except.map, reassignSuccess_dbBookings, hmo]

/-- C3 amended witness: concrete instance on the fixed-host scenario, where the
substitution branch applies. -/
theorem evt_built_from_mutation_booking_witness :
    (roundRobinManualReassignment envA 1 2 none).2.map (fun r => r.evt) =
      Except.ok (buildCalendarEvent envA bookingA etFixed u2) ∧
    (roundRobinManualReassignment envA 1 2 none).2.map (fun r => r.dbBookings) =
      Except.ok (envA.bookings.map (fun b => updateAttendeeInBooking b rrAttendeeU1.id u2)) :=
  (evt_built_from_mutation_booking envA 1 2 none bookingA uF 6 etFixed (defaultHost u2)
    rfl rfl rfl rfl rfl rfl).2 rrAttendeeU1 rfl rfl

/-- C9: the organizer-default-conferencing branch of the location resolution is dead
code.  For every event-type location configuration, every new-organizer metadata and
every stored location, the resolved booking location is the stored booking location;
whereas the spec-modelled resolution, on an event type configured with the
organizer-default-conferencing location type and a new organizer carrying a default
conferencing link, returns that link instead. -/
theorem location_resolution_dead_branch :
    (∀ et u loc, resolvedBookingLocation et u loc = loc) ∧
    resolvedBookingLocation
        { etNoFixed with locations := [{ type := OrganizerDefaultConferencingAppType }] } u2
        (some "inPerson") = some "inPerson" ∧
    resolvedBookingLocationSpec
        { etNoFixed with locations := [{ type := OrganizerDefaultConferencingAppType }] } u2
        (some "inPerson") = some "https://meet.example/u2" :=
  ⟨fun _ _ _ => rfl, rfl, rfl⟩

/-- Helper: an ordered pair of positions in a list survives prepending a prefix. -/
theorem pair_indices_append_left {α : Type} (l0 l1 : List α) (a b : α)
    (h : ∃ i j : Nat, i < j ∧ l1[i]? = some a ∧ l1[j]? = some b) :
    ∃ i j : Nat, i < j ∧ (l0 ++ l1)[i]? = some a ∧ (l0 ++ l1)[j]? = some b := by
  obtain ⟨i, j, hij, ha, hb⟩ := h
  refine ⟨l0.length + i, l0.length + j, by omega, ?_, ?_⟩
  · rw [List.getElem?_append_right (by omega), Nat.add_sub_cancel_left]
    exact ha
  · rw [List.getElem?_append_right (by omega), Nat.add_sub_cancel_left]
    exact hb

/-- Helper: an ordered pair of positions in a list survives appending a suffix. -/
theorem pair_indices_append_right {α : Type} (l1 l2 : List α) (a b : α)
    (h : ∃ i j : Nat, i < j ∧ l1[i]? = some a ∧ l1[j]? = some b) :
    ∃ i j : Nat, i < j ∧ (l1 ++ l2)[i]? = some a ∧ (l1 ++ l2)[j]? = some b := by
  obtain ⟨i, j, hij, ha, hb⟩ := h
  have hi : i < l1.length := (List.getElem?_eq_some.mp ha).1
  have hj : j < l1.length := (List.getElem?_eq_some.mp hb).1
  refine ⟨i, j, hij, ?_, ?_⟩
  · rw [List.getElem?_append_left hi]
    exact ha
  · rw [List.getElem?_append_left hj]
    exact hb

/-- Helper: when one element of a list maps to a two-element block, the two block
entries occur at ordered positions of the flattened map. -/
theorem flatMap_pair_indices {α β : Type} (f : α → List β) (l : List α) (x : α) (a b : β)
    (hx : x ∈ l) (hfx : f x = [a, b]) :
    ∃ i j : Nat, i < j ∧ (l.flatMap f)[i]? = some a ∧ (l.flatMap f)[j]? = some b := by
  induction l with
  | nil => cases hx
  | cons y ys ih =>
      rw [List.flatMap_cons]
      rcases List.mem_cons.mp hx with rfl | hmem
      · apply pair_indices_append_right
        rw [hfx]
        exact ⟨0, 1, by omega, rfl, rfl⟩
      · exact pair_indices_append_left _ _ _ _ (ih hmem)

/-- The booking uid is never touched by the mutation step. -/
theorem mutationOf_booking_uid (env : Env) (b0 : Booking) (et : EventType) (bId nId : Nat)
    (hTarget : Host) :
    (mutationOf env b0 et bId nId hTarget).booking.uid = b0.uid := by
  rw [mutationOf]
  cases hc : organizerChanged et b0 nId
  · cases hrr : currentRRHostOf et b0
    · rw [mutationStep_noop]
    · rw [mutationStep_substitution]
  · rw [mutationStep_changed]
    rfl

/-- The mutation step emits no workflow-migration effect. -/
theorem mutationOf_effects_not_migration (env : Env) (b0 : Booking) (et : EventType)
    (bId nId : Nat) (hTarget : Host) :
    ∀ e ∈ (mutationOf env b0 et bId nId hTarget).effects, e.isWorkflowMigration = false := by
  rw [mutationOf]
  cases hc : organizerChanged et b0 nId
  · cases hrr : currentRRHostOf et b0
    · rw [mutationStep_noop]
      intro e he
      cases he
    · rw [mutationStep_substitution]
      intro e he
      rcases List.mem_singleton.mp he with rfl
      rfl
  · rw [mutationStep_changed]
    intro e he
    rcases List.mem_singleton.mp he with rfl
    rfl

/-- Unfolding of the workflow-migration trace. -/
theorem handleWorkflowsUpdate_eq (env : Env) (bk : Booking) (u : User) (et : EventType) :
    handleWorkflowsUpdate env bk u et =
      (env.workflowReminders.filter (reminderMatches bk.uid)).flatMap
          (migrateReminderEffects u.email) ++
        [Effect.scheduleWorkflowReminders
          ((env.workflows.filter (newEventWorkflowMatches et)).map (fun w => w.id))] := rfl

/-- C7: workflow migration runs exactly when the organizer changed (the trace carries
a new-event workflow scheduling call iff the decision bit is set), and for every
pending email-host reminder matching the query, the replacement reminder addressed to
the new organizer occurs in the trace strictly before the deletion of the original
reminder (schedule-then-cancel). -/
theorem workflow_migration_iff_and_ordered (env : Env) (bId nId : Nat) (orgId : Option Nat)
    (b0 : Booking) (orig : User) (etId : Nat) (et : EventType) (hTarget : Host)
    (hb : env.bookings.find? (fun b => b.id == bId) = some b0)
    (hu : b0.user = some orig)
    (hei : b0.eventTypeId = some etId)
    (het : env.eventTypes.find? (fun e2 => e2.id == etId) = some et)
    (hh : (effectiveHosts et).find? (fun h2 => h2.user.id == nId) = some hTarget)
    (hnf : hTarget.isFixed = false) :
    ((∃ ids, Effect.scheduleWorkflowReminders ids ∈
        (roundRobinManualReassignment env bId nId orgId).1) ↔
      organizerChanged et b0 nId = true) ∧
    (∀ rem ∈ env.workflowReminders, reminderMatches b0.uid rem = true →
      ∀ s, rem.workflowStep = some s → organizerChanged et b0 nId = true →
        ∃ i j : Nat, i < j ∧
          (roundRobinManualReassignment env bId nId orgId).1[i]? =
            some (Effect.scheduleReminder hTarget.user.email s.workflow.trigger
              s.workflow.time s.workflow.timeUnit s.template) ∧
          (roundRobinManualReassignment env bId nId orgId).1[j]? =
            some (Effect.deleteReminder rem.id rem.referenceId)) := by
  rw [reassign_success_eq env bId nId orgId b0 orig etId et hTarget hb hu hei het hh hnf]
  rw [reassignSuccess_effects env b0 orig et bId nId hTarget,
    mutationOf_booking_uid env b0 et bId nId hTarget]
  constructor
  · cases hch : organizerChanged et b0 nId
    · simp only [Bool.false_eq_true, iff_false, if_false, List.append_nil]
      rintro ⟨ids, hmem2⟩
      rcases List.mem_append.mp hmem2 with h1 | h1
      · have hnot := mutationOf_effects_not_migration env b0 et bId nId hTarget _ h1
        simp [Effect.isWorkflowMigration] at hnot
      · simp at h1
    · simp only [if_true, handleWorkflowsUpdate_eq]
      constructor
      · intro _
        trivial
      · intro _
        refine ⟨(env.workflows.filter (newEventWorkflowMatches et)).map (fun w => w.id), ?_⟩
        simp [List.mem_append]
  · intro rem hmem hmatch s hs hch
    rw [hch]
    simp only [if_true, handleWorkflowsUpdate_eq]
    rw [mutationOf_booking_uid env b0 et bId nId hTarget]
    apply pair_indices_append_left
    apply pair_indices_append_right
    apply flatMap_pair_indices (migrateReminderEffects hTarget.user.email)
      (env.workflowReminders.filter (reminderMatches b0.uid)) rem
    · exact List.mem_filter.mpr ⟨hmem, hmatch⟩
    · simp [migrateReminderEffects, hs]

/-- C7 witness: concrete instance in the no-fixed-host scenario with one matching
pending reminder. -/
theorem workflow_migration_iff_and_ordered_witness :
    ((∃ ids, Effect.scheduleWorkflowReminders ids ∈
        (roundRobinManualReassignment envB 1 2 none).1) ↔
      organizerChanged etNoFixed bookingB 2 = true) ∧
    (∀ rem ∈ envB.workflowReminders, reminderMatches bookingB.uid rem = true →
      ∀ s, rem.workflowStep = some s → organizerChanged etNoFixed bookingB 2 = true →
        ∃ i j : Nat, i < j ∧
          (roundRobinManualReassignment envB 1 2 none).1[i]? =
            some (Effect.scheduleReminder u2.email s.workflow.trigger
              s.workflow.time s.workflow.timeUnit s.template) ∧
          (roundRobinManualReassignment envB 1 2 none).1[j]? =
            some (Effect.deleteReminder rem.id rem.referenceId)) :=
  workflow_migration_iff_and_ordered envB 1 2 none bookingB u1 5 etNoFixed (defaultHost u2)
    rfl rfl rfl rfl rfl rfl

end RoundRobin
